import Mathlib

/-!
Verification of the configuration core of neat-python
(`neat/config.py` and `neat/aggregations.py`), as a shallow embedding.

Python values are modelled by `PyVal` (floats as exact fractions: the
properties verified here involve no float arithmetic, only values parsed
from terminating decimal literals), exceptions by `PyExc` (by class,
carrying the message), and `warnings.warn` diagnostics as a returned list
of message strings.
-/

set_option maxRecDepth 16384

namespace Neat

/-- The five supported parameter kinds.  The data-model invariant says
`value_type` is always one of `str`, `int`, `bool`, `float`, `list`. -/
inductive PyType where
  | str
  | int
  | bool
  | float
  | list
deriving DecidableEq, Repr

/-- Python float values, as exact fractions (kept unreduced).  The
properties verified here involve no float arithmetic: floats are only
parsed from terminating decimal literals and printed back. -/
structure PyFloat where
  num : Int
  den : Nat
deriving DecidableEq, Repr

/-- Python runtime values that flow through the configuration code. -/
inductive PyVal where
  | str (s : String)
  | int (n : Int)
  | bool (b : Bool)
  | float (q : PyFloat)
  | list (xs : List String)
deriving DecidableEq, Repr

/-- Python exceptions raised by the embedded code, by class.
`configError` stands for `configparser.Error` and its subclasses
(`NoSectionError`, `NoOptionError`); `unknownConfigItem` for the
repository's own `UnknownConfigItemError` (a `NameError` subclass). -/
inductive PyExc where
  | configError (msg : String)
  | valueError (msg : String)
  | runtimeError (msg : String)
  | unknownConfigItem (msg : String)
  | assertionError
  | attributeError (msg : String)
  | typeError (msg : String)
  | keyError (msg : String)
  | exception (msg : String)
deriving DecidableEq, Repr

/-- A single-quote character, written by code point. -/
def sq : String := "\x27"

/-- Python `repr` of a string: the single-quoted form (none of the strings
appearing here contain quotes themselves). -/
def pyRepr (s : String) : String := sq ++ s ++ sq

/-- Python `sep.join(pieces)`. -/
def strJoin (sep : String) : List String → String
  | [] => ""
  | [x] => x
  | x :: y :: tl => x ++ sep ++ strJoin sep (y :: tl)

/-- Left-pad a digit string with zeros to width `w`. -/
def padZeros (s : String) (w : Nat) : String :=
  String.mk (List.replicate (w - s.length) '0') ++ s

/-- Strip trailing zeros of a fraction part, keeping at least one digit. -/
def trimFrac (l : List Char) : List Char :=
  match l.reverse.dropWhile (fun c => c == '0') with
  | [] => ['0']
  | r => r.reverse

/-- Rendering of a Python float from an exact fraction, agreeing with
`str(float)` on the terminating decimals used in this development. -/
def floatRepr (q : PyFloat) : String :=
  let sign := if q.num < 0 then "-" else ""
  let n := q.num.natAbs
  let d := q.den
  match (List.range 40).find? (fun k => 10 ^ k % d == 0) with
  | some k =>
    if k = 0 then sign ++ toString (n / d) ++ ".0"
    else
      let m := n * (10 ^ k / d)
      sign ++ toString (m / 10 ^ k) ++ "." ++
        String.mk (trimFrac (padZeros (toString (m % 10 ^ k)) k).data)
  | none => sign ++ toString n ++ "/" ++ toString d

/-- Python `str(type)`, e.g. `"<class 'bool'>"`. -/
def typeStr : PyType → String
  | .str => "<class " ++ sq ++ "str" ++ sq ++ ">"
  | .int => "<class " ++ sq ++ "int" ++ sq ++ ">"
  | .bool => "<class " ++ sq ++ "bool" ++ sq ++ ">"
  | .float => "<class " ++ sq ++ "float" ++ sq ++ ">"
  | .list => "<class " ++ sq ++ "list" ++ sq ++ ">"

/-- Python `str(value)`. -/
def pyStr : PyVal → String
  | .str s => s
  | .int n => toString n
  | .bool b => if b then "True" else "False"
  | .float q => floatRepr q
  | .list xs => "[" ++ strJoin ", " (xs.map pyRepr) ++ "]"

/-- Python `repr(value)` (`"{!r}".format(value)`). -/
def pyReprVal : PyVal → String
  | .str s => pyRepr s
  | v => pyStr v

/-- Python `isinstance(v, t)` on the five kinds; `bool` is a subclass of
`int`. -/
def isinstance : PyVal → PyType → Bool
  | .str _, .str => true
  | .int _, .int => true
  | .bool _, .bool => true
  | .bool _, .int => true
  | .float _, .float => true
  | .list _, .list => true
  | _, _ => false

/-- Python `str.split` with an explicit one-character separator, on
character lists: empty pieces are kept and the empty string yields one
empty piece. -/
def splitChars (c : Char) : List Char → List (List Char)
  | [] => [[]]
  | x :: xs =>
    match splitChars c xs with
    | [] => [[]]
    | y :: ys => if x = c then [] :: y :: ys else (x :: y) :: ys

/-- Python `s.split(" ")`. -/
def pySplit (s : String) : List String :=
  (splitChars ' ' s.data).map String.mk

/-- ASCII lowercase of one character. -/
def pyLowerChar (c : Char) : Char :=
  if 65 ≤ c.toNat && c.toNat ≤ 90 then Char.ofNat (c.toNat + 32) else c

/-- Python `str.lower` (ASCII; all tokens compared by this code are ASCII). -/
def pyLower (s : String) : String :=
  String.mk (s.data.map pyLowerChar)

/-- Python `str.ljust`. -/
def ljust (s : String) (w : Nat) : String :=
  s ++ String.mk (List.replicate (w - s.length) ' ')

/-- Python surrounding-whitespace strip. -/
def pyTrim (l : List Char) : List Char :=
  ((l.dropWhile Char.isWhitespace).reverse.dropWhile Char.isWhitespace).reverse

/-- Value of an all-digit character list. -/
def digitsVal (l : List Char) : Nat :=
  l.foldl (fun a c => a * 10 + (c.toNat - 48)) 0

/-- A nonempty all-digit character list, as a number. -/
def digitsToNat? (l : List Char) : Option Nat :=
  if !l.isEmpty && l.all Char.isDigit then some (digitsVal l) else none

/-- Optional leading sign; `true` means negative. -/
def splitSign : List Char → Bool × List Char
  | '-' :: tl => (true, tl)
  | '+' :: tl => (false, tl)
  | l => (false, l)

/-- Python `int(string)`: whitespace, optional sign, decimal digits
(digit-group underscores are not used in this repository and are not
modelled). -/
def pyIntParse (s : String) : Option Int :=
  match splitSign (pyTrim s.data) with
  | (neg, body) =>
    (digitsToNat? body).map (fun n => if neg then -(n : Int) else (n : Int))

/-- Mantissa of a float literal: `digits`, `digits.`, `.digits` or
`digits.digits`. -/
def parseMantissa (l : List Char) : Option PyFloat :=
  let ip := l.takeWhile (fun c => c != '.')
  match l.dropWhile (fun c => c != '.') with
  | [] => if !ip.isEmpty && ip.all Char.isDigit then some ⟨(digitsVal ip : Int), 1⟩ else none
  | _ :: frac =>
    if (ip.all Char.isDigit && frac.all Char.isDigit) && !(ip ++ frac).isEmpty then
      some ⟨(digitsVal ip * 10 ^ frac.length + digitsVal frac : Nat), 10 ^ frac.length⟩
    else none

/-- Python `float(string)` on finite decimal/exponent literals (`inf` and
`nan` spellings are not used in this repository and are not modelled). -/
def pyFloatParse (s : String) : Option PyFloat :=
  match splitSign (pyTrim s.data) with
  | (neg, body) =>
    let mant := body.takeWhile (fun c => c != 'e' && c != 'E')
    let res :=
      match body.dropWhile (fun c => c != 'e' && c != 'E') with
      | [] => parseMantissa mant
      | _ :: ex =>
        match splitSign ex with
        | (eneg, ed) =>
          match parseMantissa mant, digitsToNat? ed with
          | some m, some e =>
            some (if eneg then ⟨m.num, m.den * 10 ^ e⟩ else ⟨m.num * (10 ^ e : Nat), m.den⟩)
          | _, _ => none
    res.map (fun q => if neg then ⟨-q.num, q.den⟩ else q)

/-- One configuration item: name, kind and optional default
(`ConfigParameter.__init__`). -/
structure ConfigParameter where
  name : String
  value_type : PyType
  default : Option PyVal := none
deriving DecidableEq, Repr

/-- Message `"Error interpreting config item '{}' with value {!r} and type {}"`,
the wrapper message raised by the `except Exception` clause of
`ConfigParameter.interpret`. -/
def interpErrMsg (name : String) (v : PyVal) (t : PyType) : String :=
  "Error interpreting config item " ++ sq ++ name ++ sq ++ " with value " ++
    pyReprVal v ++ " and type " ++ typeStr t

/-- Body of the `try:` block of `ConfigParameter.interpret`: kind-directed
coercion.  On the default-fallback path the incoming value may be any
Python value, hence the attribute/type errors of the non-string cases. -/
def coerceInner (name : String) (t : PyType) (v : PyVal) : Except PyExc PyVal :=
  match t with
  | .str => .ok (.str (pyStr v))
  | .int =>
    match v with
    | .str s =>
      match pyIntParse s with
      | some n => .ok (.int n)
      | none => .error (.valueError ("invalid literal for int() with base 10: " ++ pyRepr s))
    | .int n => .ok (.int n)
    | .bool b => .ok (.int (if b then 1 else 0))
    | .float q => .ok (.int (q.num.tdiv (q.den : Int)))
    | .list _ => .error (.typeError "int() argument must be a string or a number")
  | .bool =>
    match v with
    | .str s =>
      if (pyLower s) = "true" then .ok (.bool true)
      else if (pyLower s) = "false" then .ok (.bool false)
      else .error (.runtimeError (name ++ " must be True or False"))
    | _ => .error (.attributeError "lower")
  | .float =>
    match v with
    | .str s =>
      match pyFloatParse s with
      | some q => .ok (.float q)
      | none => .error (.valueError ("could not convert string to float: " ++ pyRepr s))
    | .int n => .ok (.float ⟨n, 1⟩)
    | .bool b => .ok (.float ⟨if b then 1 else 0, 1⟩)
    | .float q => .ok (.float q)
    | .list _ => .error (.typeError "float() argument must be a string or a number")
  | .list =>
    match v with
    | .str s => .ok (.list (pySplit s))
    | _ => .error (.attributeError "split")

/-- The `try/except Exception` wrapper of `ConfigParameter.interpret`: any
failure inside the coercion block (including the bool-literal
`RuntimeError`) is re-raised as the generic interpretation error. -/
def coerceVal (p : ConfigParameter) (v : PyVal) : Except PyExc PyVal :=
  match coerceInner p.name p.value_type v with
  | .ok r => .ok r
  | .error _ => .error (.runtimeError (interpErrMsg p.name v p.value_type))

/-- Message `"Using default {!r} for '{!s}'"`. -/
def usingDefaultMsg (d : PyVal) (name : String) : String :=
  "Using default " ++ pyReprVal d ++ " for " ++ sq ++ name ++ sq

/-- Embeds `ConfigParameter.interpret`; the first component lists the
`warnings.warn` diagnostics emitted by the call. -/
def ConfigParameter.interpret (p : ConfigParameter) (config_dict : List (String × String)) :
    List String × Except PyExc PyVal :=
  match config_dict.lookup p.name with
  | some v => ([], coerceVal p (.str v))
  | none =>
    match p.default with
    | none => ([], .error (.runtimeError ("Missing configuration item: " ++ p.name)))
    | some d =>
      if p.value_type != PyType.str && isinstance d p.value_type then
        ([usingDefaultMsg d p.name], .ok d)
      else
        ([usingDefaultMsg d p.name], coerceVal p d)

/-- Embeds `ConfigParameter.format`.  `" ".join` iterates a string character-wise
and rejects non-iterables with `TypeError`, as Python does. -/
def ConfigParameter.format (p : ConfigParameter) (v : PyVal) : Except PyExc String :=
  if p.value_type = PyType.list then
    match v with
    | .list xs => .ok (strJoin " " xs)
    | .str s => .ok (strJoin " " (s.data.map Char.toString))
    | _ => .error (.typeError "can only join an iterable")
  else .ok (pyStr v)

/-- Code-point lexicographic comparison on character lists: Python string
comparison as used by `list.sort()`. -/
def lexLeChars : List Char → List Char → Bool
  | [], _ => true
  | _ :: _, [] => false
  | a :: as, b :: bs =>
    if a.toNat < b.toNat then true
    else if b.toNat < a.toNat then false
    else lexLeChars as bs

/-- Python `str` comparison (code-point lexicographic). -/
def strLe (a b : String) : Bool :=
  lexLeChars a.data b.data

/-- Python `dict((p.name, p) for p in params)` indexed at `name`: on duplicate
names the later entry wins, as in a Python dict comprehension. -/
def dictFind (params : List ConfigParameter) (name : String) : Option ConfigParameter :=
  params.reverse.find? (fun p => p.name == name)

/-- The write loop of `write_pretty_params`: one `"{} = {}\n"` line per
(sorted) name, via the name-to-descriptor dict. -/
def renderSorted (getVal : String → PyVal) (params : List ConfigParameter)
    (longest : Nat) : List String → Except PyExc String
  | [] => .ok ""
  | n :: rest =>
    match dictFind params n with
    | none => .error (.keyError n)
    | some p =>
      match p.format (getVal p.name) with
      | .error e => .error e
      | .ok fv =>
        match renderSorted getVal params longest rest with
        | .error e => .error e
        | .ok tail => .ok (ljust p.name longest ++ " = " ++ fv ++ "\n" ++ tail)

/-- Embeds `write_pretty_params(f, config, params)`; the text written to `f` is
returned.  `getVal` stands for `getattr(config, ·)`.  `max` over the empty
name sequence raises `ValueError`, exactly as in Python. -/
def write_pretty_params (getVal : String → PyVal) (params : List ConfigParameter) :
    Except PyExc String :=
  match params.map (fun p => p.name) with
  | [] => .error (.valueError "max() arg is an empty sequence")
  | n :: ns =>
    let longest := ns.foldl (fun a m => max a m.length) n.length
    renderSorted getVal params longest
      (List.insertionSort (fun a b : String => strLe a b = true) (n :: ns))

/-- A component built by `DefaultClassConfig.__init__`: the schema it was
built from plus the fields the `setattr` loop installed. -/
structure DefaultClassConfig where
  _params : List ConfigParameter
  fields : List (String × PyVal)
deriving Repr

/-- The `setattr` loop of `DefaultClassConfig.__init__`: interpret each
descriptor in order, accumulating fields and warnings, stopping at the
first exception. -/
def interpretAll (param_dict : List (String × String)) :
    List ConfigParameter → List String × Except PyExc (List (String × PyVal))
  | [] => ([], .ok [])
  | p :: ps =>
    match p.interpret param_dict with
    | (w, .error e) => (w, .error e)
    | (w, .ok v) =>
      match interpretAll param_dict ps with
      | (w2, .error e) => (w ++ w2, .error e)
      | (w2, .ok fs) => (w ++ w2, .ok ((p.name, v) :: fs))

/-- Comprehension `[x for x in iterkeys(param_dict) if not x in param_list_names]`. -/
def unknownKeys (param_dict : List (String × String)) (names : List String) : List String :=
  (param_dict.map Prod.fst).filter (fun x => !names.contains x)

/-- Embeds `DefaultClassConfig.__init__`. -/
def DefaultClassConfig.init (param_dict : List (String × String))
    (param_list : List ConfigParameter) : List String × Except PyExc DefaultClassConfig :=
  match interpretAll param_dict param_list with
  | (w, .error e) => (w, .error e)
  | (w, .ok fs) =>
    let unknown_list := unknownKeys param_dict (param_list.map (fun p => p.name))
    if unknown_list.length > 1 then
      (w, .error (.unknownConfigItem
        ("Unknown configuration items:\n" ++ strJoin "\n\t" unknown_list)))
    else
      match unknown_list with
      | u :: _ => (w, .error (.unknownConfigItem ("Unknown configuration item " ++ u)))
      | [] => (w, .ok ⟨param_list, fs⟩)

/-- Embeds `DefaultClassConfig.write_config`: delegate to the pretty printer with
the component's own schema.  `getattr` reads the fields the loop installed
(every schema name is present there on any path reaching a write). -/
def DefaultClassConfig.write_config (c : DefaultClassConfig) : Except PyExc String :=
  write_pretty_params (fun n => (c.fields.lookup n).getD (.str "")) c._params

/-- The state of a `ConfigParser` after reading the file: sections in file
order, each an ordered option map.  Option names are as the reader
normalises them; value interpolation is not used by this repository and is
not modelled. -/
structure IniData where
  sections : List (String × List (String × String))
deriving Repr

def IniData.has_section (cp : IniData) (sec : String) : Bool :=
  (cp.sections.lookup sec).isSome

/-- Embeds `ConfigParser.get`: `NoSectionError` / `NoOptionError` are
`configparser.Error` subclasses. -/
def IniData.get (cp : IniData) (sec name : String) : Except PyExc String :=
  match cp.sections.lookup sec with
  | none => .error (.configError ("No section: " ++ pyRepr sec))
  | some opts =>
    match opts.lookup name with
    | none => .error (.configError ("No option " ++ pyRepr name ++ " in section: " ++ pyRepr sec))
    | some v => .ok v

/-- Embeds `ConfigParser.getint`: fetch, then `int(...)` (a malformed value is a
`ValueError`, not a `configparser.Error`). -/
def IniData.getint (cp : IniData) (sec name : String) : Except PyExc PyVal :=
  match cp.get sec name with
  | .error e => .error e
  | .ok s =>
    match pyIntParse s with
    | some n => .ok (.int n)
    | none => .error (.valueError ("invalid literal for int() with base 10: " ++ pyRepr s))

/-- Embeds `ConfigParser.getboolean`: the reader accepts its eight boolean
spellings and raises `ValueError` otherwise. -/
def IniData.getboolean (cp : IniData) (sec name : String) : Except PyExc PyVal :=
  match cp.get sec name with
  | .error e => .error e
  | .ok s =>
    if ["1", "yes", "true", "on"].contains (pyLower s) then .ok (.bool true)
    else if ["0", "no", "false", "off"].contains (pyLower s) then .ok (.bool false)
    else .error (.valueError ("Not a boolean: " ++ s))

/-- Embeds `ConfigParser.getfloat`. -/
def IniData.getfloat (cp : IniData) (sec name : String) : Except PyExc PyVal :=
  match cp.get sec name with
  | .error e => .error e
  | .ok s =>
    match pyFloatParse s with
    | some q => .ok (.float q)
    | none => .error (.valueError ("could not convert string to float: " ++ pyRepr s))

/-- Embeds `ConfigParser.items(section)`. -/
def IniData.items (cp : IniData) (sec : String) : Except PyExc (List (String × String)) :=
  match cp.sections.lookup sec with
  | none => .error (.configError ("No section: " ++ pyRepr sec))
  | some opts => .ok opts

/-- Embeds `ConfigParameter.parse`: pull the named option with the kind-specific
accessor.  With the five-kind `PyType` the trailing
`RuntimeError("Unexpected configuration type")` branch is unreachable. -/
def ConfigParameter.parse (p : ConfigParameter) (sec : String) (cp : IniData) :
    Except PyExc PyVal :=
  match p.value_type with
  | .int => cp.getint sec p.name
  | .bool => cp.getboolean sec p.name
  | .float => cp.getfloat sec p.name
  | .list =>
    match cp.get sec p.name with
    | .error e => .error e
    | .ok v => .ok (.list (pySplit v))
  | .str =>
    match cp.get sec p.name with
    | .error e => .error e
    | .ok v => .ok (.str v)

/-- A pluggable component type: its `__name__` plus the duck-typed
`parse_config` / `write_config` attributes (`none` models an absent
attribute).  Component state is an external collaborator (spec §1) and is
modelled abstractly as a `String` blob. -/
structure ComponentType where
  name : String
  parse_config : Option (List (String × String) → Except PyExc String) := none
  write_config : Option (String → String) := none

/-- The resolved root configuration object. -/
structure Config where
  genome_type : ComponentType
  reproduction_type : ComponentType
  species_set_type : ComponentType
  stagnation_type : ComponentType
  fields : List (String × PyVal)
  genome_config : String
  species_set_config : String
  stagnation_config : String
  reproduction_config : String

/-- The class-level `Config.__params` schema. -/
def Config.neatParams : List ConfigParameter :=
  [⟨"pop_size", PyType.int, none⟩,
   ⟨"fitness_criterion", PyType.str, none⟩,
   ⟨"fitness_threshold", PyType.float, none⟩,
   ⟨"reset_on_extinction", PyType.bool, none⟩,
   ⟨"no_fitness_termination", PyType.bool, some (.bool false)⟩]

/-- The `except (Error, RuntimeError)` clause of `Config.__init__`:
`ValueError` from a malformed value is not caught. -/
def catchable : PyExc → Bool
  | .configError _ => true
  | .runtimeError _ => true
  | _ => false

/-- One iteration of the global-parameter loop of `Config.__init__`.  (The
reader's accessors never return `None`, so the dead
`if getattr(self, p.name) is None` branch of the source has no effect.) -/
def resolveGlobalParam (p : ConfigParameter) (cp : IniData) :
    List String × Except PyExc PyVal :=
  match p.default with
  | none => ([], p.parse "NEAT" cp)
  | some d =>
    match p.parse "NEAT" cp with
    | .ok v => ([], .ok v)
    | .error e =>
      if catchable e then ([usingDefaultMsg d p.name], .ok d)
      else ([], .error e)

/-- The whole global-parameter loop. -/
def resolveGlobals (cp : IniData) :
    List ConfigParameter → List String × Except PyExc (List (String × PyVal))
  | [] => ([], .ok [])
  | p :: ps =>
    match resolveGlobalParam p cp with
    | (w, .error e) => (w, .error e)
    | (w, .ok v) =>
      match resolveGlobals cp ps with
      | (w2, .error e) => (w ++ w2, .error e)
      | (w2, .ok fs) => (w ++ w2, .ok ((p.name, v) :: fs))

/-- The data `Config.__init__` computes before it is attached, together
with the four type descriptors, to the constructed object. -/
structure LoadedParts where
  fields : List (String × PyVal)
  genome_config : String
  species_set_config : String
  stagnation_config : String
  reproduction_config : String

/-- The body of `Config.__init__`.  `fileExists` models
`os.path.isfile(filename)` and `cp` the parsed file.  The four
`assert hasattr(..., 'parse_config')` checks come first, before the file
path is examined. -/
def Config.initCore (genome_type reproduction_type species_set_type stagnation_type : ComponentType)
    (filename : String) (fileExists : Bool) (cp : IniData) :
    List String × Except PyExc LoadedParts :=
  match genome_type.parse_config, reproduction_type.parse_config,
        species_set_type.parse_config, stagnation_type.parse_config with
  | some gp, some rp, some sp, some tp =>
    if !fileExists then
      ([], .error (.exception ("No such config file: " ++ filename)))
    else if !cp.has_section "NEAT" then
      ([], .error (.runtimeError
        (sq ++ "NEAT" ++ sq ++ " section not found in NEAT configuration file.")))
    else
      match resolveGlobals cp Config.neatParams with
      | (w, .error e) => (w, .error e)
      | (w, .ok fs) =>
        let param_dict := (cp.sections.lookup "NEAT").getD []
        let unknown_list := unknownKeys param_dict (Config.neatParams.map (fun p => p.name))
        if unknown_list.length > 1 then
          (w, .error (.unknownConfigItem
            ("Unknown (section " ++ sq ++ "NEAT" ++ sq ++ ") configuration items:\n" ++
              strJoin "\n\t" unknown_list)))
        else
          match unknown_list with
          | u :: _ =>
            (w, .error (.unknownConfigItem
              ("Unknown (section " ++ sq ++ "NEAT" ++ sq ++ ") configuration item " ++ u)))
          | [] =>
            (w,
              match cp.items genome_type.name with
              | .error e => .error e
              | .ok gd =>
                match gp gd with
                | .error e => .error e
                | .ok gcfg =>
                  match cp.items species_set_type.name with
                  | .error e => .error e
                  | .ok sd =>
                    match sp sd with
                    | .error e => .error e
                    | .ok scfg =>
                      match cp.items stagnation_type.name with
                      | .error e => .error e
                      | .ok td =>
                        match tp td with
                        | .error e => .error e
                        | .ok tcfg =>
                          match cp.items reproduction_type.name with
                          | .error e => .error e
                          | .ok rd =>
                            match rp rd with
                            | .error e => .error e
                            | .ok rcfg => .ok ⟨fs, gcfg, scfg, tcfg, rcfg⟩)
  | _, _, _, _ => ([], .error .assertionError)

/-- Embeds `Config.__init__`: run the body and store the four type descriptors
on the constructed object (`self.genome_type = genome_type`, ...). -/
def Config.init (genome_type reproduction_type species_set_type stagnation_type : ComponentType)
    (filename : String) (fileExists : Bool) (cp : IniData) :
    List String × Except PyExc Config :=
  match Config.initCore genome_type reproduction_type species_set_type stagnation_type
      filename fileExists cp with
  | (w, .error e) => (w, .error e)
  | (w, .ok parts) =>
    (w, .ok ⟨genome_type, reproduction_type, species_set_type, stagnation_type,
             parts.fields, parts.genome_config, parts.species_set_config,
             parts.stagnation_config, parts.reproduction_config⟩)

/-- Embeds `Config.save`; the text written to the destination is returned.
Accessing a missing `write_config` attribute raises `AttributeError`.
The section order is that of the source: genome, species set, stagnation,
reproduction. -/
def Config.save (c : Config) : Except PyExc String :=
  match write_pretty_params (fun n => (c.fields.lookup n).getD (.str "")) Config.neatParams with
  | .error e => .error e
  | .ok neat =>
    match c.genome_type.write_config with
    | none => .error (.attributeError "write_config")
    | some wg =>
      match c.species_set_type.write_config with
      | none => .error (.attributeError "write_config")
      | some wsp =>
        match c.stagnation_type.write_config with
        | none => .error (.attributeError "write_config")
        | some wst =>
          match c.reproduction_type.write_config with
          | none => .error (.attributeError "write_config")
          | some wr =>
            .ok ("# The `NEAT` section specifies parameters particular to the NEAT algorithm\n" ++
              "# or the experiment itself.  This is the only required section.\n" ++
              "[NEAT]\n" ++ neat ++
              "\n[" ++ c.genome_type.name ++ "]\n" ++ wg c.genome_config ++
              "\n[" ++ c.species_set_type.name ++ "]\n" ++ wsp c.species_set_config ++
              "\n[" ++ c.stagnation_type.name ++ "]\n" ++ wst c.stagnation_config ++
              "\n[" ++ c.reproduction_type.name ++ "]\n" ++ wr c.reproduction_config)

/-- The delegate store of `AggregationFunctionSet`
(`neat/multiparameter.py`, whose internals are outside the sources at
hand); only its `get_func` surface is relevant here and it is kept fully
abstract, so the shim property below holds for every delegate behaviour,
lookup failures included. -/
structure MultiParameterSet (F : Type) where
  get_func : String → String → Except PyExc F

/-- Embeds `AggregationFunctionSet`, after construction. -/
structure AggregationFunctionSet (F : Type) where
  multiparameterset : MultiParameterSet F

/-- Embeds `AggregationFunctionSet.get`. -/
def AggregationFunctionSet.get {F : Type} (s : AggregationFunctionSet F) (name : String) :
    Except PyExc F :=
  s.multiparameterset.get_func name "aggregation"

/-- Embeds `AggregationFunctionSet.__getitem__`: emit the deprecation diagnostic,
then delegate to `get`. -/
def AggregationFunctionSet.getitem {F : Type} (s : AggregationFunctionSet F) (index : String) :
    List String × Except PyExc F :=
  (["Use get, not indexing ([" ++ pyRepr index ++ "]), for aggregation functions"],
   s.get index)

/-! ## Helper lemmas -/

theorem splitChars_cons (c x : Char) (xs : List Char) :
    splitChars c (x :: xs) =
      match splitChars c xs with
      | [] => [[]]
      | y :: ys => if x = c then [] :: y :: ys else (x :: y) :: ys := rfl

theorem splitChars_ne_nil (c : Char) : ∀ l : List Char, splitChars c l ≠ []
  | [] => by simp [splitChars]
  | x :: xs => by
    have h := splitChars_ne_nil c xs
    rw [splitChars_cons]
    rcases hm : splitChars c xs with _ | ⟨y, ys⟩
    · exact absurd hm h
    · by_cases hx : x = c <;> simp [hx]

theorem splitChars_of_not_mem {c : Char} :
    ∀ {a : List Char}, c ∉ a → splitChars c a = [a] := by
  intro a
  induction a with
  | nil => intro _; rfl
  | cons x xs ih =>
    intro h
    have hx : x ≠ c := fun he => h (he ▸ List.mem_cons_self x xs)
    have hxs : c ∉ xs := fun hm => h (List.mem_cons_of_mem x hm)
    rw [splitChars_cons, ih hxs]
    simp [hx]

theorem splitChars_sep_append {c : Char} :
    ∀ {a : List Char} (rest : List Char), c ∉ a →
      splitChars c (a ++ c :: rest) = a :: splitChars c rest := by
  intro a
  induction a with
  | nil =>
    intro rest _
    show splitChars c (c :: rest) = [] :: splitChars c rest
    rw [splitChars_cons]
    rcases hm : splitChars c rest with _ | ⟨y, ys⟩
    · exact absurd hm (splitChars_ne_nil c rest)
    · simp
  | cons x xs ih =>
    intro rest h
    have hx : x ≠ c := fun he => h (he ▸ List.mem_cons_self x xs)
    have hxs : c ∉ xs := fun hm => h (List.mem_cons_of_mem x hm)
    show splitChars c (x :: (xs ++ c :: rest)) = (x :: xs) :: splitChars c rest
    rw [splitChars_cons, ih rest hxs]
    simp [hx]

theorem data_strJoin_space_cons (x y : String) (tl : List String) :
    (strJoin " " (x :: y :: tl)).data = x.data ++ ' ' :: (strJoin " " (y :: tl)).data := by
  show (x ++ " " ++ strJoin " " (y :: tl)).data = _
  rw [String.data_append, String.data_append, List.append_assoc]
  rfl

/-- Round trip of space-join and space-split, for non-empty token lists
whose tokens contain no space. -/
theorem pySplit_strJoin : ∀ {xs : List String}, xs ≠ [] →
    (∀ x ∈ xs, ' ' ∉ x.data) → pySplit (strJoin " " xs) = xs := by
  intro xs
  induction xs with
  | nil => intro h; exact absurd rfl h
  | cons x tl ih =>
    intro _ hsp
    cases tl with
    | nil =>
      show pySplit x = [x]
      unfold pySplit
      rw [splitChars_of_not_mem (hsp x (List.mem_cons_self x []))]
      rfl
    | cons y tl2 =>
      have hx : ' ' ∉ x.data := hsp x (List.mem_cons_self x _)
      have htl : ∀ z ∈ y :: tl2, ' ' ∉ z.data :=
        fun z hz => hsp z (List.mem_cons_of_mem x hz)
      unfold pySplit
      rw [data_strJoin_space_cons, splitChars_sep_append _ hx, List.map_cons]
      have hr := ih (by simp) htl
      unfold pySplit at hr
      rw [hr]

theorem mem_infix_strJoin (sep : String) {x : String} :
    ∀ {xs : List String}, x ∈ xs → x.data <:+: (strJoin sep xs).data := by
  intro xs
  induction xs with
  | nil => intro h; cases h
  | cons a tl ih =>
    intro hx
    cases tl with
    | nil =>
      rcases List.mem_cons.mp hx with h | h
      · subst h; exact List.infix_rfl
      · cases h
    | cons b tl2 =>
      rcases List.mem_cons.mp hx with h | h
      · subst h
        show x.data <:+: (x ++ sep ++ strJoin sep (b :: tl2)).data
        rw [String.data_append, String.data_append]
        exact ((List.prefix_append x.data sep.data).trans
          (List.prefix_append (x.data ++ sep.data) _)).isInfix
      · refine (ih h).trans ?_
        show (strJoin sep (b :: tl2)).data <:+: (a ++ sep ++ strJoin sep (b :: tl2)).data
        rw [String.data_append]
        exact (List.suffix_append _ _).isInfix

theorem find?_name_eq_some :
    ∀ {l : List ConfigParameter} {p : ConfigParameter},
      (l.map (fun q => q.name)).Nodup → p ∈ l →
      l.find? (fun q => q.name == p.name) = some p := by
  intro l
  induction l with
  | nil => intro p _ hp; cases hp
  | cons a tl ih =>
    intro p hnd hp
    rw [List.map_cons, List.nodup_cons] at hnd
    rcases List.mem_cons.mp hp with h | h
    · subst h
      simp [List.find?]
    · have hne : (a.name == p.name) = false := by
        refine beq_eq_false_iff_ne.mpr fun he => hnd.1 ?_
        exact he ▸ List.mem_map_of_mem (fun q => q.name) h
      rw [List.find?_cons, hne]
      exact ih hnd.2 h

theorem dictFind_eq_some {l : List ConfigParameter} {p : ConfigParameter}
    (hnd : (l.map (fun q => q.name)).Nodup) (hp : p ∈ l) :
    dictFind l p.name = some p := by
  unfold dictFind
  refine find?_name_eq_some ?_ (List.mem_reverse.mpr hp)
  rw [List.map_reverse]
  exact List.nodup_reverse.mpr hnd

theorem le_foldl_max : ∀ (l : List Nat) (a : Nat), a ≤ l.foldl max a := by
  intro l
  induction l with
  | nil => intro a; exact Nat.le_refl a
  | cons x xs ih =>
    intro a
    exact Nat.le_trans (Nat.le_max_left a x) (ih (max a x))

theorem mem_le_foldl_max : ∀ {l : List Nat} {x : Nat}, x ∈ l → ∀ a, x ≤ l.foldl max a := by
  intro l
  induction l with
  | nil => intro x hx; cases hx
  | cons y ys ih =>
    intro x hx a
    rcases List.mem_cons.mp hx with h | h
    · subst h
      exact Nat.le_trans (Nat.le_max_right a x) (le_foldl_max ys (max a x))
    · exact ih h (max a y)

theorem length_ljust (s : String) (w : Nat) : (ljust s w).length = max s.length w := by
  unfold ljust
  rw [String.length_append]
  show s.length + (List.replicate (w - s.length) ' ').length = max s.length w
  rw [List.length_replicate]
  omega

/-! ## C1, C2: `ConfigParameter.interpret` -/

/-- C1: with the parameter name absent from the raw mapping, `interpret`
returns the default and emits exactly the one `"Using default ..."`
diagnostic when a default of the declared kind exists, and fails with the
`Missing configuration item` (`MissingParameter`) error when no default
exists. -/
theorem c1_interpret_absent (p : ConfigParameter) (config_dict : List (String × String))
    (habs : config_dict.lookup p.name = none) :
    (p.default = none →
      p.interpret config_dict =
        ([], .error (.runtimeError ("Missing configuration item: " ++ p.name)))) ∧
    (∀ d, p.default = some d → isinstance d p.value_type = true →
      p.interpret config_dict = ([usingDefaultMsg d p.name], .ok d)) := by
  constructor
  · intro h
    simp [ConfigParameter.interpret, habs, h]
  · intro d hd hinst
    unfold ConfigParameter.interpret
    rw [habs, hd]
    cases htv : p.value_type <;> cases d <;> rw [htv] at hinst <;>
      simp_all [isinstance, coerceVal, coerceInner, htv, pyStr]

/-- Witness for C1 at concrete inputs. -/
theorem c1_interpret_absent_witness :
    ConfigParameter.interpret ⟨"x", PyType.bool, some (.bool false)⟩ [] =
      (["Using default False for \x27x\x27"], .ok (.bool false)) ∧
    ConfigParameter.interpret ⟨"y", PyType.int, none⟩ [] =
      ([], .error (.runtimeError "Missing configuration item: y")) :=
  ⟨(c1_interpret_absent ⟨"x", PyType.bool, some (.bool false)⟩ [] rfl).2
      (.bool false) rfl rfl,
   (c1_interpret_absent ⟨"y", PyType.int, none⟩ [] rfl).1 rfl⟩

/-- C2 (counterexample): a Bool-kind parameter with a present literal that
is neither true nor false does fail, but the surfaced error is the generic
interpretation wrapper (the `"... must be True or False"` raise is caught
by the blanket `except Exception` and replaced), so the failure is not the
distinct `InvalidBoolLiteral` error the claim names. -/
theorem c2_bool_literal_counterexample :
    (ConfigParameter.interpret ⟨"x", PyType.bool, none⟩ [("x", "maybe")]).2 =
      .error (.runtimeError
        "Error interpreting config item \x27x\x27 with value \x27maybe\x27 and type <class \x27bool\x27>") ∧
    "Error interpreting config item \x27x\x27 with value \x27maybe\x27 and type <class \x27bool\x27>" ≠
      "x must be True or False" :=
  ⟨rfl, by decide⟩

/-- C2 (amended): for a Bool-kind parameter with a present raw value,
`interpret` maps case-insensitive `"true"` to true and case-insensitive
`"false"` to false; any other literal fails — with the invalid-literal
raise wrapped into the generic `InterpretationError`
(`"Error interpreting config item ..."`), not surfaced as a distinct
`InvalidBoolLiteral` error. -/
theorem c2_bool_coercion (p : ConfigParameter) (ht : p.value_type = PyType.bool)
    (config_dict : List (String × String)) (v : String)
    (hv : config_dict.lookup p.name = some v) :
    (pyLower v = "true" → p.interpret config_dict = ([], .ok (.bool true))) ∧
    (pyLower v = "false" → p.interpret config_dict = ([], .ok (.bool false))) ∧
    (pyLower v ≠ "true" → pyLower v ≠ "false" →
      p.interpret config_dict =
        ([], .error (.runtimeError (interpErrMsg p.name (.str v) PyType.bool)))) := by
  refine ⟨?_, ?_, ?_⟩ <;> intro h
  · simp [ConfigParameter.interpret, hv, coerceVal, coerceInner, ht, h]
  · simp [ConfigParameter.interpret, hv, coerceVal, coerceInner, ht, h]
  · intro h2
    simp [ConfigParameter.interpret, hv, coerceVal, coerceInner, ht, h, h2]

/-- Witness for C2's amended theorem at concrete inputs. -/
theorem c2_bool_coercion_witness :
    ConfigParameter.interpret ⟨"x", PyType.bool, none⟩ [("x", "True")] =
      ([], .ok (.bool true)) ∧
    ConfigParameter.interpret ⟨"x", PyType.bool, none⟩ [("x", "FALSE")] =
      ([], .ok (.bool false)) :=
  ⟨(c2_bool_coercion ⟨"x", PyType.bool, none⟩ rfl [("x", "True")] "True" rfl).1 rfl,
   (c2_bool_coercion ⟨"x", PyType.bool, none⟩ rfl [("x", "FALSE")] "FALSE" rfl).2.1 rfl⟩

/-! ## C3: unknown configuration keys -/

/-- C3: when, after the schema loop has succeeded, some raw-mapping keys
are named by no schema descriptor, both the generic component parse
(`DefaultClassConfig.__init__`) and the NEAT-section check of the root
load fail with `UnknownConfigItem`; every unknown key occurs in the
message, which has a singular form (`... configuration item k`) when
exactly one key is unknown and a distinct plural form
(`... configuration items:` followed by every key) when two or more
are. -/
theorem c3_unknown_config_items
    (param_dict : List (String × String)) (param_list : List ConfigParameter)
    (fs : List (String × PyVal))
    (hok : (interpretAll param_dict param_list).2 = Except.ok fs)
    (hne : unknownKeys param_dict (param_list.map (fun p => p.name)) ≠ [])
    (g r s t : ComponentType)
    (gp rp sp tp : List (String × String) → Except PyExc String)
    (hg : g.parse_config = some gp) (hr : r.parse_config = some rp)
    (hs : s.parse_config = some sp) (ht : t.parse_config = some tp)
    (filename : String) (cp : IniData) (opts : List (String × String))
    (hsec : cp.sections.lookup "NEAT" = some opts)
    (gfs : List (String × PyVal))
    (hgok : (resolveGlobals cp Config.neatParams).2 = Except.ok gfs)
    (hne2 : unknownKeys opts (Config.neatParams.map (fun p => p.name)) ≠ []) :
    (∃ msg, (DefaultClassConfig.init param_dict param_list).2 =
        .error (.unknownConfigItem msg) ∧
      (∀ k ∈ unknownKeys param_dict (param_list.map (fun p => p.name)),
         k.data <:+: msg.data) ∧
      (∀ u, unknownKeys param_dict (param_list.map (fun p => p.name)) = [u] →
         msg = "Unknown configuration item " ++ u) ∧
      ((unknownKeys param_dict (param_list.map (fun p => p.name))).length > 1 →
         msg = "Unknown configuration items:\n" ++
           strJoin "\n\t" (unknownKeys param_dict (param_list.map (fun p => p.name))))) ∧
    (∃ msg, (Config.init g r s t filename true cp).2 =
        .error (.unknownConfigItem msg) ∧
      (∀ k ∈ unknownKeys opts (Config.neatParams.map (fun p => p.name)),
         k.data <:+: msg.data) ∧
      (∀ u, unknownKeys opts (Config.neatParams.map (fun p => p.name)) = [u] →
         msg = "Unknown (section \x27NEAT\x27) configuration item " ++ u) ∧
      ((unknownKeys opts (Config.neatParams.map (fun p => p.name))).length > 1 →
         msg = "Unknown (section \x27NEAT\x27) configuration items:\n" ++
           strJoin "\n\t" (unknownKeys opts (Config.neatParams.map (fun p => p.name))))) := by
  constructor
  · rcases hIA : interpretAll param_dict param_list with ⟨w, ir⟩
    rw [hIA] at hok
    simp only at hok
    subst hok
    unfold DefaultClassConfig.init
    rw [hIA]
    rcases hu : unknownKeys param_dict (param_list.map (fun p => p.name)) with _ | ⟨u, rest⟩
    · exact absurd hu hne
    · rw [hu]
      cases rest with
      | nil =>
        refine ⟨"Unknown configuration item " ++ u, by simp, ?_, ?_, ?_⟩
        · intro k hk
          rcases List.mem_singleton.mp hk with h
          subst h
          rw [String.data_append]
          exact (List.suffix_append _ _).isInfix
        · intro u2 hu2
          rw [List.cons.injEq] at hu2
          rw [hu2.1]
        · intro hlen
          simp at hlen
      | cons u2 rest2 =>
        refine ⟨"Unknown configuration items:\n" ++ strJoin "\n\t" (u :: u2 :: rest2),
          by simp, ?_, ?_, ?_⟩
        · intro k hk
          rw [String.data_append]
          exact (mem_infix_strJoin "\n\t" hk).trans (List.suffix_append _ _).isInfix
        · intro u3 hu3
          simp at hu3
        · intro _
          rfl
  · rcases hRG : resolveGlobals cp Config.neatParams with ⟨w2, rr⟩
    rw [hRG] at hgok
    simp only at hgok
    subst hgok
    have hsome : cp.has_section "NEAT" = true := by
      unfold IniData.has_section
      rw [hsec]
      rfl
    rcases hu : unknownKeys opts (Config.neatParams.map (fun p => p.name)) with _ | ⟨u, rest⟩
    · exact absurd hu hne2
    · cases rest with
      | nil =>
        refine ⟨"Unknown (section \x27NEAT\x27) configuration item " ++ u,
          by simp [Config.init, Config.initCore, hg, hr, hs, ht, hsome, hRG, hsec, hu]
             try rfl,
          ?_, ?_, ?_⟩
        · intro k hk
          rw [hu] at hk
          rcases List.mem_singleton.mp hk with h
          subst h
          rw [String.data_append]
          exact (List.suffix_append _ _).isInfix
        · intro u2 hu2
          rw [hu] at hu2
          injection hu2 with h1 _
          subst h1
          rfl
        · intro hlen
          rw [hu] at hlen
          simp at hlen
      | cons u2 rest2 =>
        refine ⟨"Unknown (section \x27NEAT\x27) configuration items:\n" ++
            strJoin "\n\t" (u :: u2 :: rest2),
          by simp [Config.init, Config.initCore, hg, hr, hs, ht, hsome, hRG, hsec, hu]
             try rfl,
          ?_, ?_, ?_⟩
        · intro k hk
          rw [hu] at hk
          rw [String.data_append]
          exact (mem_infix_strJoin "\n\t" hk).trans (List.suffix_append _ _).isInfix
        · intro u3 hu3
          rw [hu] at hu3
          simp at hu3
        · intro _
          rw [hu]

/-- Concrete component types used by witnesses: trivial collaborators
whose `parse_config` accepts anything and whose `write_config` writes
nothing. -/
def tgType : ComponentType := ⟨"TG", some (fun _ => .ok ""), some (fun _ => "")⟩

def trType : ComponentType := ⟨"TR", some (fun _ => .ok ""), some (fun _ => "")⟩

def tsType : ComponentType := ⟨"TS", some (fun _ => .ok ""), some (fun _ => "")⟩

def ttType : ComponentType := ⟨"TT", some (fun _ => .ok ""), some (fun _ => "")⟩

/-- A well-formed parsed configuration file (witness fixture). -/
def iniOk : IniData :=
  ⟨[("NEAT", [("pop_size", "150"), ("fitness_criterion", "max"),
              ("fitness_threshold", "3.9"), ("reset_on_extinction", "False")]),
    ("TG", []), ("TR", []), ("TS", []), ("TT", [])]⟩

/-- The same file with two stray keys in the `NEAT` section. -/
def iniUnknown : IniData :=
  ⟨[("NEAT", [("pop_size", "150"), ("fitness_criterion", "max"),
              ("fitness_threshold", "3.9"), ("reset_on_extinction", "False"),
              ("aa", "1"), ("bb", "2")]),
    ("TG", []), ("TR", []), ("TS", []), ("TT", [])]⟩

/-- Witness for C3 at concrete inputs: one stray key gives the singular
message; two stray keys give the plural message listing both. -/
theorem c3_unknown_config_items_witness :
    (DefaultClassConfig.init [("zz", "1")] []).2 =
      .error (.unknownConfigItem "Unknown configuration item zz") ∧
    (Config.init tgType trType tsType ttType "f" true iniUnknown).2 =
      .error (.unknownConfigItem
        "Unknown (section \x27NEAT\x27) configuration items:\naa\n\tbb") := by
  obtain ⟨⟨m1, h1, _, hs1, _⟩, ⟨m2, h2, _, _, hp2⟩⟩ :=
    c3_unknown_config_items [("zz", "1")] [] [] rfl (by decide)
      tgType trType tsType ttType
      (fun _ => .ok "") (fun _ => .ok "") (fun _ => .ok "") (fun _ => .ok "")
      rfl rfl rfl rfl "f" iniUnknown
      [("pop_size", "150"), ("fitness_criterion", "max"),
       ("fitness_threshold", "3.9"), ("reset_on_extinction", "False"),
       ("aa", "1"), ("bb", "2")] rfl
      [("pop_size", .int 150), ("fitness_criterion", .str "max"),
       ("fitness_threshold", .float ⟨39, 10⟩), ("reset_on_extinction", .bool false),
       ("no_fitness_termination", .bool false)] rfl (by decide)
  constructor
  · rw [h1, hs1 "zz" rfl]
    rfl
  · rw [h2, hp2 (by decide)]
    rfl

/-! ## C4: default substitution only on the reader's not-found -/

theorem parse_noOption (p : ConfigParameter) (cp : IniData)
    (opts : List (String × String)) (hsec : cp.sections.lookup "NEAT" = some opts)
    (habs : opts.lookup p.name = none) :
    p.parse "NEAT" cp = .error (.configError
      ("No option " ++ pyRepr p.name ++ " in section: " ++ pyRepr "NEAT")) := by
  cases htv : p.value_type <;>
    simp [ConfigParameter.parse, htv, IniData.getint, IniData.getboolean,
      IniData.getfloat, IniData.get, hsec, habs]

theorem parse_present_error_valueError (p : ConfigParameter) (cp : IniData)
    (opts : List (String × String)) (hsec : cp.sections.lookup "NEAT" = some opts)
    (v : String) (hv : opts.lookup p.name = some v) :
    ∀ e, p.parse "NEAT" cp = .error e → ∃ m, e = .valueError m := by
  intro e he
  cases htv : p.value_type <;>
    simp only [ConfigParameter.parse, htv, IniData.getint, IniData.getboolean,
      IniData.getfloat, IniData.get, hsec, hv] at he
  case str => simp at he
  case list => simp at he
  case int =>
    split at he
    · simp at he
    · simp only [Except.error.injEq] at he
      exact ⟨_, he.symm⟩
  case bool =>
    split at he
    · simp at he
    · split at he
      · simp at he
      · simp only [Except.error.injEq] at he
        exact ⟨_, he.symm⟩
  case float =>
    split at he
    · simp at he
    · simp only [Except.error.injEq] at he
      exact ⟨_, he.symm⟩

/-- C4: during root load, for a global schema parameter that has a
default, only the reader's not-found condition is caught and replaced by
the default (with one diagnostic); a `ValueError` coming from a malformed
value present in the file propagates unchanged — fatal despite the
default — and any default substitution (i.e. any emitted diagnostic) can
only have come from an absent option. -/
theorem c4_default_substitution_only_on_absence
    (p : ConfigParameter) (d : PyVal) (hd : p.default = some d)
    (cp : IniData) (opts : List (String × String))
    (hsec : cp.sections.lookup "NEAT" = some opts) :
    (∀ v m, opts.lookup p.name = some v →
       p.parse "NEAT" cp = .error (.valueError m) →
       resolveGlobalParam p cp = ([], .error (.valueError m))) ∧
    (opts.lookup p.name = none →
       resolveGlobalParam p cp = ([usingDefaultMsg d p.name], .ok d)) ∧
    ((resolveGlobalParam p cp).1 ≠ [] → opts.lookup p.name = none) := by
  refine ⟨?_, ?_, ?_⟩
  · intro v m _ hparse
    unfold resolveGlobalParam
    rw [hd, hparse]
    simp [catchable]
  · intro habs
    unfold resolveGlobalParam
    rw [hd, parse_noOption p cp opts hsec habs]
    simp [catchable]
  · intro hw
    rcases hv : opts.lookup p.name with _ | v
    · rfl
    · exfalso
      apply hw
      unfold resolveGlobalParam
      rw [hd]
      rcases hp2 : p.parse "NEAT" cp with e | v2
      · obtain ⟨m, hm⟩ := parse_present_error_valueError p cp opts hsec v hv e hp2
        subst hm
        simp [catchable]
      · rfl

/-- Witness for C4 at concrete inputs: a malformed present value is fatal
despite the default; an absent option substitutes the default with one
diagnostic. -/
theorem c4_default_substitution_witness :
    resolveGlobalParam ⟨"x", PyType.int, some (.int 7)⟩ ⟨[("NEAT", [("x", "abc")])]⟩ =
      ([], .error (.valueError "invalid literal for int() with base 10: \x27abc\x27")) ∧
    resolveGlobalParam ⟨"x", PyType.int, some (.int 7)⟩ ⟨[("NEAT", [])]⟩ =
      (["Using default 7 for \x27x\x27"], .ok (.int 7)) :=
  ⟨(c4_default_substitution_only_on_absence ⟨"x", PyType.int, some (.int 7)⟩
      (.int 7) rfl ⟨[("NEAT", [("x", "abc")])]⟩ [("x", "abc")] rfl).1
      "abc" "invalid literal for int() with base 10: \x27abc\x27" rfl rfl,
   (c4_default_substitution_only_on_absence ⟨"x", PyType.int, some (.int 7)⟩
      (.int 7) rfl ⟨[("NEAT", [])]⟩ [] rfl).2.1 rfl⟩

/-! ## C7: StringList split/join -/

/-- C7 (counterexample): the empty token list does not round-trip:
`format` renders it as the empty string, which `interpret` splits back to
the one-element list containing the empty token. -/
theorem c7_roundtrip_counterexample :
    ConfigParameter.format ⟨"x", PyType.list, none⟩ (.list []) = .ok "" ∧
    ConfigParameter.interpret ⟨"x", PyType.list, none⟩ [("x", "")] =
      ([], .ok (.list [""])) ∧
    PyVal.list [""] ≠ PyVal.list ([] : List String) :=
  ⟨rfl, rfl, by decide⟩

/-- C7 (amended): for a StringList-kind parameter, `interpret` splits a
present raw value on single spaces and `format` joins with single spaces
(`"a b c"` ↔ `["a","b","c"]`); every NON-EMPTY list of tokens containing
no embedded spaces round-trips exactly (the empty list does not, see the
counterexample). -/
theorem c7_stringlist_roundtrip (p : ConfigParameter) (ht : p.value_type = PyType.list) :
    (∀ config_dict v, (config_dict : List (String × String)).lookup p.name = some v →
       p.interpret config_dict = ([], .ok (.list (pySplit v)))) ∧
    (∀ xs, p.format (.list xs) = .ok (strJoin " " xs)) ∧
    pySplit "a b c" = ["a", "b", "c"] ∧
    strJoin " " ["a", "b", "c"] = "a b c" ∧
    (∀ xs : List String, xs ≠ [] → (∀ x ∈ xs, ' ' ∉ x.data) →
       pySplit (strJoin " " xs) = xs) := by
  refine ⟨?_, ?_, rfl, rfl, fun xs h1 h2 => pySplit_strJoin h1 h2⟩
  · intro config_dict v hv
    simp [ConfigParameter.interpret, hv, coerceVal, coerceInner, ht]
  · intro xs
    simp [ConfigParameter.format, ht]

/-- Witness for C7's amended theorem at concrete inputs. -/
theorem c7_stringlist_roundtrip_witness :
    ConfigParameter.interpret ⟨"x", PyType.list, none⟩ [("x", "a b c")] =
      ([], .ok (.list ["a", "b", "c"])) ∧
    pySplit (strJoin " " ["aa", "b"]) = ["aa", "b"] :=
  ⟨(c7_stringlist_roundtrip ⟨"x", PyType.list, none⟩ rfl).1 [("x", "a b c")] "a b c" rfl,
   (c7_stringlist_roundtrip ⟨"x", PyType.list, none⟩ rfl).2.2.2.2 ["aa", "b"]
     (by decide) (by decide)⟩

/-! ## C6: the pretty printer -/

theorem lexLeChars_total : ∀ a b : List Char, lexLeChars a b = true ∨ lexLeChars b a = true := by
  intro a
  induction a with
  | nil => intro b; left; rfl
  | cons x xs ih =>
    intro b
    cases b with
    | nil => right; rfl
    | cons y ys =>
      by_cases h1 : x.toNat < y.toNat
      · left; simp [lexLeChars, h1]
      · by_cases h2 : y.toNat < x.toNat
        · right; simp [lexLeChars, h2]
        · rcases ih ys with h | h
          · left; simp [lexLeChars, h1, h2, h]
          · right; simp [lexLeChars, h1, h2, h]

theorem lexLeChars_trans : ∀ {a b c : List Char},
    lexLeChars a b = true → lexLeChars b c = true → lexLeChars a c = true := by
  intro a
  induction a with
  | nil => intro b c _ _; rfl
  | cons x xs ih =>
    intro b c hab hbc
    cases b with
    | nil => simp [lexLeChars] at hab
    | cons y ys =>
      cases c with
      | nil => simp [lexLeChars] at hbc
      | cons z zs =>
        simp only [lexLeChars] at hab hbc ⊢
        by_cases h1 : x.toNat < y.toNat
        · by_cases h2 : y.toNat < z.toNat
          · simp [Nat.lt_trans h1 h2]
          · by_cases h2b : z.toNat < y.toNat
            · simp [h2, h2b] at hbc
            · have hz : x.toNat < z.toNat := by omega
              simp [hz]
        · by_cases h1b : y.toNat < x.toNat
          · simp [h1, h1b] at hab
          · by_cases h2 : y.toNat < z.toNat
            · have hz : x.toNat < z.toNat := by omega
              simp [hz]
            · by_cases h2b : z.toNat < y.toNat
              · simp [h2, h2b] at hbc
              · have h3 : ¬ x.toNat < z.toNat := by omega
                have h3b : ¬ z.toNat < x.toNat := by omega
                simp only [h1, h1b, if_false, if_neg] at hab
                simp only [h2, h2b, if_false, if_neg] at hbc
                simp only [h3, h3b, if_false, if_neg]
                exact ih hab hbc

instance : IsTotal String (fun a b => strLe a b = true) :=
  ⟨fun a b => lexLeChars_total a.data b.data⟩

instance : IsTrans String (fun a b => strLe a b = true) :=
  ⟨fun _ _ _ hab hbc => lexLeChars_trans hab hbc⟩

theorem char_lt_iff_toNat {a b : Char} : a < b ↔ a.toNat < b.toNat := Iff.rfl

theorem not_lex_of_lexLe : ∀ {x y : List Char}, lexLeChars x y = true →
    ¬ List.Lex (fun c d : Char => c < d) y x := by
  intro x
  induction x with
  | nil =>
    intro y h hlt
    cases hlt
  | cons a as ih =>
    intro y h hlt
    cases y with
    | nil => simp [lexLeChars] at h
    | cons b bs =>
      simp only [lexLeChars] at h
      cases hlt with
      | cons htl =>
        rw [if_neg (Nat.lt_irrefl _), if_neg (Nat.lt_irrefl _)] at h
        exact ih h htl
      | rel hba =>
        have hba2 : b.toNat < a.toNat := char_lt_iff_toNat.mp hba
        rw [if_neg (by omega : ¬ a.toNat < b.toNat), if_pos hba2] at h
        exact Bool.noConfusion h

/-- The executable code-point comparison implies the library string
order (so sorting by `strLe` is sorting alphabetically). -/
theorem le_of_strLe {a b : String} (h : strLe a b = true) : a ≤ b := by
  have h2 : ¬ b < a := fun hba =>
    not_lex_of_lexLe h (String.lt_iff_toList_lt.mp hba)
  exact not_lt.mp h2

/-- Maximum schema name length, as the spec words it (§4.2). -/
def maxNameLen (params : List ConfigParameter) : Nat :=
  (params.map (fun p => p.name.length)).foldl max 0

/-- The schema names in the printer's sorted order. -/
def sortedNames (params : List ConfigParameter) : List String :=
  List.insertionSort (fun a b : String => strLe a b = true)
    (params.map (fun p => p.name))

/-- The `paddedName = formattedValue` line of one name (first-match
lookup: with unique names, the descriptor of that name). -/
def lineFor (getVal : String → PyVal) (params : List ConfigParameter) (w : Nat)
    (n : String) : String :=
  match params.find? (fun p => p.name == n) with
  | some p =>
    match p.format (getVal p.name) with
    | .ok s => ljust p.name w ++ " = " ++ s ++ "\n"
    | .error _ => ""
  | none => ""

/-- Concatenation of rendered lines. -/
def concatStrings : List String → String
  | [] => ""
  | l :: ls => l ++ concatStrings ls

theorem renderSorted_eq (getVal : String → PyVal) (params : List ConfigParameter)
    (w : Nat) (hnd : (params.map (fun p => p.name)).Nodup)
    (hfmt : ∀ p ∈ params, ∃ s, p.format (getVal p.name) = .ok s) :
    ∀ ns : List String, (∀ n ∈ ns, n ∈ params.map (fun p => p.name)) →
      renderSorted getVal params w ns =
        .ok (concatStrings (ns.map (lineFor getVal params w))) := by
  intro ns
  induction ns with
  | nil => intro _; rfl
  | cons n rest ih =>
    intro hmem
    obtain ⟨p, hp, hpn⟩ := List.mem_map.mp (hmem n (List.mem_cons_self n rest))
    obtain ⟨s, hfs⟩ := hfmt p hp
    have hdict : dictFind params n = some p := hpn ▸ dictFind_eq_some hnd hp
    have hfind : params.find? (fun q => q.name == n) = some p :=
      hpn ▸ find?_name_eq_some hnd hp
    have ihh := ih (fun m hm => hmem m (List.mem_cons_of_mem n hm))
    unfold renderSorted
    simp only [hdict, hfs, ihh, List.map_cons]
    show Except.ok _ = Except.ok (lineFor getVal params w n ++ concatStrings _)
    unfold lineFor
    rw [hfind]
    simp [hfs]

theorem maxNameLen_foldl (n : String) (ns : List String) :
    ns.foldl (fun a m => max a m.length) n.length =
      ((n :: ns).map String.length).foldl max 0 := by
  rw [List.map_cons, List.foldl_cons, List.foldl_map, Nat.zero_max]

/-- C6: characterisation of `write_pretty_params` on a schema with
distinct names: the output is exactly one `paddedName = formattedValue`
line per (descriptor, value) pair, the lines ordered alphabetically by
name (code-point order, as Python's `list.sort` on `str`), every name
padded to the maximum name length of the schema.  Determinism is inherent:
the printer is a pure function of its arguments. -/
theorem c6_pretty_printer (getVal : String → PyVal) (params : List ConfigParameter)
    (hnd : (params.map (fun p => p.name)).Nodup) (hne : params ≠ [])
    (hfmt : ∀ p ∈ params, ∃ s, p.format (getVal p.name) = .ok s) :
    write_pretty_params getVal params =
      .ok (concatStrings ((sortedNames params).map
        (lineFor getVal params (maxNameLen params)))) ∧
    (sortedNames params).Sorted (fun a b : String => a ≤ b) ∧
    List.Perm (sortedNames params) (params.map (fun p => p.name)) ∧
    (sortedNames params).length = params.length ∧
    (∀ p ∈ params, (ljust p.name (maxNameLen params)).length = maxNameLen params) := by
  have hperm : List.Perm (sortedNames params) (params.map (fun p => p.name)) :=
    List.perm_insertionSort _ _
  refine ⟨?_, ?_, hperm, ?_, ?_⟩
  · rcases hm : params.map (fun p => p.name) with _ | ⟨n, ns⟩
    · exact absurd (List.map_eq_nil_iff.mp hm) hne
    · unfold write_pretty_params
      rw [hm]
      show renderSorted getVal params (ns.foldl (fun a m => max a m.length) n.length)
          (List.insertionSort (fun a b : String => strLe a b = true) (n :: ns)) = _
      have hw : ns.foldl (fun a m => max a m.length) n.length = maxNameLen params := by
        rw [maxNameLen_foldl, ← hm]
        unfold maxNameLen
        rw [List.map_map]
        rfl
      rw [hw]
      have hsort : List.insertionSort (fun a b : String => strLe a b = true) (n :: ns) =
          sortedNames params := by
        unfold sortedNames
        rw [hm]
      rw [hsort]
      exact renderSorted_eq getVal params (maxNameLen params) hnd hfmt
        (sortedNames params)
        (fun m hm2 => hperm.mem_iff.mp hm2)
  · exact (List.sorted_insertionSort _ _).imp (fun h => le_of_strLe h)
  · exact hperm.length_eq.trans (List.length_map _ _)
  · intro p hp
    rw [length_ljust]
    refine Nat.max_eq_right ?_
    exact mem_le_foldl_max (List.mem_map_of_mem (fun q => q.name.length) hp) 0

/-- Concrete schema and values for the C6 witness. -/
def c6Params : List ConfigParameter :=
  [⟨"bb", PyType.int, none⟩, ⟨"a", PyType.str, none⟩, ⟨"ccc", PyType.bool, none⟩]

def c6Vals : String → PyVal := fun n =>
  if n = "bb" then .int 5 else if n = "a" then .str "hi" else .bool true

/-- Witness for C6 at a concrete schema: alignment, sorting, padding. -/
theorem c6_pretty_printer_witness :
    write_pretty_params c6Vals c6Params = .ok "a   = hi\nbb  = 5\nccc = True\n" := by
  have h := (c6_pretty_printer c6Vals c6Params (by decide) (by decide)
    (by
      intro p hp
      simp only [c6Params, List.mem_cons, List.not_mem_nil, or_false] at hp
      rcases hp with rfl | rfl | rfl <;> exact ⟨_, rfl⟩)).1
  exact h.trans rfl

/-! ## C8: registry index-style accessor -/

/-- C8: `__getitem__` of the aggregation registry returns exactly the
result of `get` (for every name and every behaviour of the underlying
store, lookup failures included) and additionally emits exactly one
deprecation diagnostic per call. -/
theorem c8_getitem_is_get_plus_warning {F : Type} (s : AggregationFunctionSet F)
    (name : String) :
    (s.getitem name).2 = s.get name ∧ (s.getitem name).1.length = 1 :=
  ⟨rfl, rfl⟩

/-! ## C9: duck-typed component contract -/

/-- A component type with its `write_config` attribute removed. -/
def stripW (c : ComponentType) : ComponentType := ⟨c.name, c.parse_config, none⟩

/-- The error of a result, if any. -/
def errOf {α : Type} : Except PyExc α → Option PyExc
  | .error e => some e
  | .ok _ => none

/-- Load (`Config.__init__`'s body) never touches `write_config`. -/
theorem initCore_ignores_write (g r s t : ComponentType)
    (filename : String) (fileExists : Bool) (cp : IniData) :
    Config.initCore g r s t filename fileExists cp =
      Config.initCore (stripW g) (stripW r) (stripW s) (stripW t) filename fileExists cp := by
  obtain ⟨gn, gpo, gwo⟩ := g
  obtain ⟨rn, rpo, rwo⟩ := r
  obtain ⟨sn, spo, swo⟩ := s
  obtain ⟨tn, tpo, twv⟩ := t
  rfl

/-- C9: (a) construction checks exactly that the four type descriptors
expose `parse_config`: if any lacks it, the result is the bare assertion
failure, uniformly in the file path, its existence and its contents (the
file is not examined); (b) load behaves identically — same diagnostics,
same error or success — when the `write_config` attributes are removed,
so a type without `write_config` is accepted at construction and load;
(c) the absence of `write_config` surfaces exactly when `save` is called,
as the `AttributeError`. -/
theorem c9_duck_typed_contract :
    (∀ (g r s t : ComponentType) (filename : String) (fileExists : Bool) (cp : IniData),
       g.parse_config = none ∨ r.parse_config = none ∨
         s.parse_config = none ∨ t.parse_config = none →
       Config.init g r s t filename fileExists cp = ([], .error .assertionError)) ∧
    (∀ (g r s t : ComponentType) (filename : String) (fileExists : Bool) (cp : IniData),
       (Config.init g r s t filename fileExists cp).1 =
         (Config.init (stripW g) (stripW r) (stripW s) (stripW t)
           filename fileExists cp).1 ∧
       errOf (Config.init g r s t filename fileExists cp).2 =
         errOf (Config.init (stripW g) (stripW r) (stripW s) (stripW t)
           filename fileExists cp).2) ∧
    (∀ c : Config,
       c.genome_type.write_config = none ∨ c.species_set_type.write_config = none ∨
         c.stagnation_type.write_config = none ∨ c.reproduction_type.write_config = none →
       c.save = .error (.attributeError "write_config")) := by
  refine ⟨?_, ?_, ?_⟩
  · intro g r s t filename fileExists cp h
    obtain ⟨gn, gpo, gwo⟩ := g
    obtain ⟨rn, rpo, rwo⟩ := r
    obtain ⟨sn, spo, swo⟩ := s
    obtain ⟨tn, tpo, twv⟩ := t
    rcases gpo with _ | gp <;> rcases rpo with _ | rp <;>
      rcases spo with _ | sp <;> rcases tpo with _ | tp <;>
      first
        | rfl
        | (rcases h with h | h | h | h <;> exact Option.noConfusion h)
  · intro g r s t filename fileExists cp
    unfold Config.init
    rw [← initCore_ignores_write]
    rcases Config.initCore g r s t filename fileExists cp with ⟨w, res⟩
    cases res <;> exact ⟨rfl, rfl⟩
  · intro c h
    obtain ⟨nt, hnt⟩ : ∃ nt, write_pretty_params
        (fun n => (c.fields.lookup n).getD (.str "")) Config.neatParams = .ok nt := ⟨_, rfl⟩
    unfold Config.save
    rw [hnt]
    rcases hg2 : c.genome_type.write_config with _ | wg
    · rfl
    · rcases hs2 : c.species_set_type.write_config with _ | wsp
      · rfl
      · rcases ht2 : c.stagnation_type.write_config with _ | wst
        · rfl
        · rcases hr2 : c.reproduction_type.write_config with _ | wr
          · rfl
          · rcases h with h | h | h | h <;>
              [rw [hg2] at h; rw [hs2] at h; rw [ht2] at h; rw [hr2] at h] <;>
              exact Option.noConfusion h

/-- Witness for C9 at concrete inputs: a genome type lacking
`parse_config` is rejected by the asserts on a non-existent file; the
load of `iniOk` succeeds with all `write_config` attributes removed, and
`save` on the loaded object then fails with the attribute error. -/
theorem c9_duck_typed_contract_witness :
    Config.init ⟨"TG", none, none⟩ trType tsType ttType "nofile" false ⟨[]⟩ =
      ([], .error .assertionError) ∧
    errOf (Config.init (stripW tgType) (stripW trType) (stripW tsType) (stripW ttType)
        "f" true iniOk).2 = none ∧
    (∀ cfg : Config, (Config.init (stripW tgType) (stripW trType) (stripW tsType)
        (stripW ttType) "f" true iniOk).2 = .ok cfg →
      cfg.save = .error (.attributeError "write_config")) := by
  refine ⟨c9_duck_typed_contract.1 ⟨"TG", none, none⟩ trType tsType ttType
      "nofile" false ⟨[]⟩ (Or.inl rfl), ?_, ?_⟩
  · rw [← (c9_duck_typed_contract.2.1 tgType trType tsType ttType "f" true iniOk).2]
    rfl
  · intro cfg hcfg
    refine c9_duck_typed_contract.2.2 cfg (Or.inl ?_)
    have h2 : (Config.init (stripW tgType) (stripW trType) (stripW tsType)
        (stripW ttType) "f" true iniOk).2 = .ok cfg := hcfg
    have h3 : cfg.genome_type = stripW tgType := by
      have h4 : (Config.init (stripW tgType) (stripW trType) (stripW tsType)
          (stripW ttType) "f" true iniOk).2.map (fun c => c.genome_type) =
          .ok (stripW tgType) := rfl
      rw [h2] at h4
      simpa using Except.ok.inj h4
    rw [h3]
    rfl

/-! ## C5: the layout of `Config.save` -/

/-- C5 (amended): for a successfully loaded configuration whose four type
descriptors expose `write_config`, `save` writes the two comment lines,
the `[NEAT]` header, the pretty-printed global parameters, then the four
component sections, each preceded by a blank line and a header named after
the component type's label, in the fixed order genome, species set,
stagnation, reproduction — which is NOT the constructor-argument order
(the constructor takes genome, reproduction, species set, stagnation). -/
theorem c5_save_layout (g r s t : ComponentType) (filename : String) (cp : IniData)
    (w : List String) (cfg : Config)
    (hinit : Config.init g r s t filename true cp = (w, .ok cfg))
    (wg wr wsp wst : String → String)
    (hwg : g.write_config = some wg) (hwr : r.write_config = some wr)
    (hws : s.write_config = some wsp) (hwt : t.write_config = some wst) :
    cfg.genome_type = g ∧ cfg.reproduction_type = r ∧
    cfg.species_set_type = s ∧ cfg.stagnation_type = t ∧
    ∃ neat, write_pretty_params (fun n => (cfg.fields.lookup n).getD (.str ""))
        Config.neatParams = .ok neat ∧
      cfg.save = .ok
        ("# The `NEAT` section specifies parameters particular to the NEAT algorithm\n" ++
         "# or the experiment itself.  This is the only required section.\n" ++
         "[NEAT]\n" ++ neat ++
         "\n[" ++ g.name ++ "]\n" ++ wg cfg.genome_config ++
         "\n[" ++ s.name ++ "]\n" ++ wsp cfg.species_set_config ++
         "\n[" ++ t.name ++ "]\n" ++ wst cfg.stagnation_config ++
         "\n[" ++ r.name ++ "]\n" ++ wr cfg.reproduction_config) := by
  unfold Config.init at hinit
  rcases hc : Config.initCore g r s t filename true cp with ⟨w2, res⟩
  rw [hc] at hinit
  cases res with
  | error e => simp at hinit
  | ok parts =>
    simp only [Prod.mk.injEq, Except.ok.injEq] at hinit
    obtain ⟨hw2, hcfg⟩ := hinit
    subst hcfg
    refine ⟨rfl, rfl, rfl, rfl, ?_⟩
    obtain ⟨nt, hnt⟩ : ∃ nt, write_pretty_params
        (fun n => ((⟨g, r, s, t, parts.fields, parts.genome_config,
            parts.species_set_config, parts.stagnation_config,
            parts.reproduction_config⟩ : Config).fields.lookup n).getD (.str ""))
        Config.neatParams = .ok nt := ⟨_, rfl⟩
    refine ⟨nt, hnt, ?_⟩
    unfold Config.save
    rw [hnt]
    show (match (⟨g, r, s, t, parts.fields, parts.genome_config, parts.species_set_config,
        parts.stagnation_config, parts.reproduction_config⟩ : Config).genome_type.write_config
        with
      | none => Except.error (PyExc.attributeError "write_config")
      | some wg2 => _) = _
    rw [show (⟨g, r, s, t, parts.fields, parts.genome_config, parts.species_set_config,
        parts.stagnation_config, parts.reproduction_config⟩ : Config).genome_type = g from rfl,
      hwg]
    rw [show (⟨g, r, s, t, parts.fields, parts.genome_config, parts.species_set_config,
        parts.stagnation_config, parts.reproduction_config⟩ : Config).species_set_type = s
        from rfl, hws]
    rw [show (⟨g, r, s, t, parts.fields, parts.genome_config, parts.species_set_config,
        parts.stagnation_config, parts.reproduction_config⟩ : Config).stagnation_type = t
        from rfl, hwt]
    rw [show (⟨g, r, s, t, parts.fields, parts.genome_config, parts.species_set_config,
        parts.stagnation_config, parts.reproduction_config⟩ : Config).reproduction_type = r
        from rfl, hwr]

/-- The result of loading the well-formed file and saving it again
(witness/counterexample fixture). -/
def c5Saved : Except PyExc String :=
  match (Config.init tgType trType tsType ttType "f" true iniOk).2 with
  | .ok c => c.save
  | .error e => .error e

/-- C5 (counterexample): the saved output of a successfully loaded
configuration places the component sections in the order `[TG]` (genome),
`[TS]` (species set), `[TT]` (stagnation), `[TR]` (reproduction) — not in
constructor-argument order, which is genome (`TG`), reproduction (`TR`),
species set (`TS`), stagnation (`TT`). -/
theorem c5_constructor_order_counterexample :
    c5Saved = .ok
      ("# The `NEAT` section specifies parameters particular to the NEAT algorithm\n" ++
       "# or the experiment itself.  This is the only required section.\n" ++
       "[NEAT]\nfitness_criterion      = max\nfitness_threshold      = 3.9\n" ++
       "no_fitness_termination = False\npop_size               = 150\n" ++
       "reset_on_extinction    = False\n\n[TG]\n\n[TS]\n\n[TT]\n\n[TR]\n") ∧
    ("# The `NEAT` section specifies parameters particular to the NEAT algorithm\n" ++
       "# or the experiment itself.  This is the only required section.\n" ++
       "[NEAT]\nfitness_criterion      = max\nfitness_threshold      = 3.9\n" ++
       "no_fitness_termination = False\npop_size               = 150\n" ++
       "reset_on_extinction    = False\n\n[TG]\n\n[TS]\n\n[TT]\n\n[TR]\n" : String) ≠
    ("# The `NEAT` section specifies parameters particular to the NEAT algorithm\n" ++
       "# or the experiment itself.  This is the only required section.\n" ++
       "[NEAT]\nfitness_criterion      = max\nfitness_threshold      = 3.9\n" ++
       "no_fitness_termination = False\npop_size               = 150\n" ++
       "reset_on_extinction    = False\n\n[TG]\n\n[TR]\n\n[TS]\n\n[TT]\n") :=
  ⟨rfl, by decide⟩

/-- The configuration object produced by loading the well-formed file. -/
def c5Cfg : Config :=
  ⟨tgType, trType, tsType, ttType,
   [("pop_size", .int 150), ("fitness_criterion", .str "max"),
    ("fitness_threshold", .float ⟨39, 10⟩), ("reset_on_extinction", .bool false),
    ("no_fitness_termination", .bool false)],
   "", "", "", ""⟩

/-- Witness for C5's amended theorem at the concrete load. -/
theorem c5_save_layout_witness :
    c5Cfg.save = .ok
      ("# The `NEAT` section specifies parameters particular to the NEAT algorithm\n" ++
       "# or the experiment itself.  This is the only required section.\n" ++
       "[NEAT]\nfitness_criterion      = max\nfitness_threshold      = 3.9\n" ++
       "no_fitness_termination = False\npop_size               = 150\n" ++
       "reset_on_extinction    = False\n\n[TG]\n\n[TS]\n\n[TT]\n\n[TR]\n") := by
  obtain ⟨_, _, _, _, neat, hn, hsave⟩ :=
    c5_save_layout tgType trType tsType ttType "f" iniOk
      ["Using default False for \x27no_fitness_termination\x27"] c5Cfg rfl
      (fun _ => "") (fun _ => "") (fun _ => "") (fun _ => "") rfl rfl rfl rfl
  have hneat : neat = "fitness_criterion      = max\nfitness_threshold      = 3.9\n" ++
      "no_fitness_termination = False\npop_size               = 150\n" ++
      "reset_on_extinction    = False\n" := by
    have h2 := hn.symm.trans (rfl :
      write_pretty_params (fun n => (c5Cfg.fields.lookup n).getD (.str ""))
        Config.neatParams = .ok ("fitness_criterion      = max\nfitness_threshold      = 3.9\n" ++
        "no_fitness_termination = False\npop_size               = 150\n" ++
        "reset_on_extinction    = False\n"))
    exact Except.ok.inj h2
  rw [hsave, hneat]
  rfl

/-! ## C10: empty schema -/

/-- C10: `write_pretty_params` on the empty descriptor list fails with the
`max()`-over-empty-sequence `ValueError` instead of writing zero lines; in
particular `DefaultClassConfig.write_config` fails on a component whose
schema is empty, and the Root Configuration's own global schema is
non-empty. -/
theorem c10_empty_schema_fails :
    (∀ getVal, write_pretty_params getVal [] =
       .error (.valueError "max() arg is an empty sequence")) ∧
    (∀ c : DefaultClassConfig, c._params = [] →
       c.write_config = .error (.valueError "max() arg is an empty sequence")) ∧
    Config.neatParams ≠ [] := by
  refine ⟨fun _ => rfl, ?_, by decide⟩
  intro c h
  unfold DefaultClassConfig.write_config
  rw [h]
  rfl

/-- Witness for C10 at a concrete component. -/
theorem c10_empty_schema_fails_witness :
    DefaultClassConfig.write_config ⟨[], []⟩ =
      .error (.valueError "max() arg is an empty sequence") :=
  c10_empty_schema_fails.2.1 ⟨[], []⟩ rfl

end Neat
